import Mathlib

/-!
Shallow embedding of `tools/bodyteleop/webrtc/stream.py`: the session
configuration builder (`WebRTCStreamBuilder`), the two connection-session
roles (`WebRTCOfferStream`, `WebRTCAnswerStream`), and the track-routing
handler (`_on_incoming_track`) of `WebRTCBaseStream`.

Python methods that mutate `self` in place are modelled as functions from
the object state to a pair `Option PyError × State`: the second component
is the object state at the point the method returns or raises, so a raise
that happens before any field assignment returns the state unchanged.
The underlying `aiortc.RTCPeerConnection` engine is opaque; it is modelled
as a state that records, in order, every operation the session performs on
it (`addTransceiver`, `addTrack`, `createOffer`, ...), together with the
`localDescription` / `remoteDescription` attributes the code reads back.
-/

namespace WebRTCStream

/-- An `aiortc.MediaStreamTrack` handle as the code uses it: an opaque
producer/consumer with a media `kind` and a wire identifier `id`. -/
structure MediaStreamTrack where
  kind : String
  id : String
deriving DecidableEq, Repr

/-- An `aiortc.RTCSessionDescription`: an `sdp` string and a `type` tag. -/
structure RTCSessionDescription where
  sdp : String
  type : String
deriving DecidableEq, Repr

/-- Modelled from the spec: `StreamingOffer` lives in
`openpilot/tools/bodyteleop/webrtc/common.py`, which is not part of this
source tree.  Per the spec's signaling-payload description it carries the
session description (`sdp`, `type`) plus, on the offer leg, the declared
expectations: `video` (ordered sequence of requested labels) and `audio`
(boolean). -/
structure StreamingOffer where
  sdp : String
  type : String
  video : List String
  audio : Bool
deriving DecidableEq, Repr

/-- Python exceptions the embedded code can raise. -/
inductive PyError where
  | assertionError (msg : String)
  | attributeError (name : String)
  | exception (msg : String)
deriving DecidableEq, Repr

instance {ε α : Type} [DecidableEq ε] [DecidableEq α] : DecidableEq (Except ε α) :=
  fun a b =>
    match a, b with
    | Except.ok x, Except.ok y =>
      if h : x = y then Decidable.isTrue (congrArg Except.ok h)
      else Decidable.isFalse (fun hh => h (Except.ok.inj hh))
    | Except.error x, Except.error y =>
      if h : x = y then Decidable.isTrue (congrArg Except.error h)
      else Decidable.isFalse (fun hh => h (Except.error.inj hh))
    | Except.ok _, Except.error _ => Decidable.isFalse (fun hh => Except.noConfusion hh)
    | Except.error _, Except.ok _ => Decidable.isFalse (fun hh => Except.noConfusion hh)

/-- Python `set.add` on a set represented as a duplicate-free list: adding a
member already present is a no-op, a new member is inserted. -/
def setAdd (s : List String) (x : String) : List String :=
  if x ∈ s then s else s ++ [x]

/-- The operations the sessions perform on the opaque connection engine,
recorded in call order. -/
inductive ConnEvent where
  | addTransceiver (kind : String) (direction : String)
  | addTrack (track : MediaStreamTrack)
  | createOffer
  | createAnswer
  | setLocalDescription (d : RTCSessionDescription)
  | setRemoteDescription (d : RTCSessionDescription)
deriving DecidableEq, Repr

/-- The opaque `aiortc.RTCPeerConnection` state: the two description
attributes the code reads back, plus the ordered log of engine calls. -/
structure RTCPeerConnection where
  localDescription : Option RTCSessionDescription
  remoteDescription : Option RTCSessionDescription
  log : List ConnEvent
deriving DecidableEq, Repr

/-- A freshly constructed `aiortc.RTCPeerConnection()`. -/
def RTCPeerConnection.new : RTCPeerConnection :=
  { localDescription := none, remoteDescription := none, log := [] }

def RTCPeerConnection.addTransceiver (pc : RTCPeerConnection)
    (kind direction : String) : RTCPeerConnection :=
  { pc with log := pc.log ++ [ConnEvent.addTransceiver kind direction] }

def RTCPeerConnection.addTrack (pc : RTCPeerConnection)
    (track : MediaStreamTrack) : RTCPeerConnection :=
  { pc with log := pc.log ++ [ConnEvent.addTrack track] }

/-- `createOffer` yields an engine-generated description; its content is
opaque to this layer, so it is a fixed symbolic value. -/
def RTCPeerConnection.createOffer (pc : RTCPeerConnection) :
    RTCSessionDescription × RTCPeerConnection :=
  (⟨"sdp-from-createOffer", "offer"⟩, { pc with log := pc.log ++ [ConnEvent.createOffer] })

/-- `createAnswer` yields an engine-generated description; opaque likewise. -/
def RTCPeerConnection.createAnswer (pc : RTCPeerConnection) :
    RTCSessionDescription × RTCPeerConnection :=
  (⟨"sdp-from-createAnswer", "answer"⟩, { pc with log := pc.log ++ [ConnEvent.createAnswer] })

def RTCPeerConnection.setLocalDescription (pc : RTCPeerConnection)
    (d : RTCSessionDescription) : RTCPeerConnection :=
  { pc with localDescription := some d,
            log := pc.log ++ [ConnEvent.setLocalDescription d] }

def RTCPeerConnection.setRemoteDescription (pc : RTCPeerConnection)
    (d : RTCSessionDescription) : RTCPeerConnection :=
  { pc with remoteDescription := some d,
            log := pc.log ++ [ConnEvent.setRemoteDescription d] }

/-- The set of recognized camera identifiers, from the assert in
`add_video_consumer`. -/
def validCameraTypes : List String := ["driver", "wideRoad", "road"]

/-- `WebRTCStreamBuilder`: the mutable session-configuration record.  The
`data_channel` / `message_handler` / `peer_connection` fields set in
`__init__` are never touched by the builder methods and are omitted. -/
structure WebRTCStreamBuilder where
  consumed_camera_tracks : List String
  consume_audio : Bool
  video_producing_tracks : List MediaStreamTrack
  audio_producing_tracks : List MediaStreamTrack
deriving DecidableEq, Repr

/-- `WebRTCStreamBuilder.__init__`. -/
def WebRTCStreamBuilder.new : WebRTCStreamBuilder :=
  { consumed_camera_tracks := [], consume_audio := false,
    video_producing_tracks := [], audio_producing_tracks := [] }

/-- `add_video_consumer`: assert the camera type is recognized, then add it
to the consumed set. -/
def add_video_consumer (b : WebRTCStreamBuilder) (camera_type : String) :
    Option PyError × WebRTCStreamBuilder :=
  if camera_type ∈ validCameraTypes then
    (none, { b with consumed_camera_tracks := setAdd b.consumed_camera_tracks camera_type })
  else
    (some (PyError.assertionError "camera_type not recognized"), b)

/-- `add_audio_consumer`: raise if audio was already requested, else set the
flag. -/
def add_audio_consumer (b : WebRTCStreamBuilder) :
    Option PyError × WebRTCStreamBuilder :=
  if b.consume_audio then
    (some (PyError.exception "Only one audio consumer allowed"), b)
  else
    (none, { b with consume_audio := true })

/-- `add_video_producer`: assert the track's kind is video, then append. -/
def add_video_producer (b : WebRTCStreamBuilder) (track : MediaStreamTrack) :
    Option PyError × WebRTCStreamBuilder :=
  if track.kind = "video" then
    (none, { b with video_producing_tracks := b.video_producing_tracks ++ [track] })
  else
    (some (PyError.assertionError "track.kind is not video"), b)

/-- `add_audio_producer`: assert the track's kind is audio, then append. -/
def add_audio_producer (b : WebRTCStreamBuilder) (track : MediaStreamTrack) :
    Option PyError × WebRTCStreamBuilder :=
  if track.kind = "audio" then
    (none, { b with audio_producing_tracks := b.audio_producing_tracks ++ [track] })
  else
    (some (PyError.assertionError "track.kind is not audio"), b)

/-- The state established by `WebRTCBaseStream.__init__`.  Field names follow
the attribute names the constructor assigns; in particular the audio flag is
stored under the misspelled attribute name `extected_incoming_audio`, exactly
as the source writes it. -/
structure WebRTCBaseStream where
  peer_connection : RTCPeerConnection
  expected_incoming_camera_types : List String
  extected_incoming_audio : Bool
  incoming_camera_tracks : List (String × MediaStreamTrack)
  incoming_audio_tracks : List MediaStreamTrack
  outgoing_video_tracks : List MediaStreamTrack
  outgoing_audio_tracks : List MediaStreamTrack
deriving DecidableEq, Repr

/-- `WebRTCBaseStream.__init__`: fresh connection, empty registries, the
supplied configuration collections. -/
def WebRTCBaseStream.init (consumed_camera_types : List String)
    (consume_audio : Bool)
    (video_producer_tracks audio_producer_tracks : List MediaStreamTrack) :
    WebRTCBaseStream :=
  { peer_connection := RTCPeerConnection.new,
    expected_incoming_camera_types := consumed_camera_types,
    extected_incoming_audio := consume_audio,
    incoming_camera_tracks := [],
    incoming_audio_tracks := [],
    outgoing_video_tracks := video_producer_tracks,
    outgoing_audio_tracks := audio_producer_tracks }

/-- Python dict assignment `d[k] = v`: replaces the value when the key is
present, appends a new entry otherwise. -/
def dictSet (d : List (String × MediaStreamTrack)) (k : String)
    (v : MediaStreamTrack) : List (String × MediaStreamTrack) :=
  if d.any (fun p => p.1 = k) then
    d.map (fun p => if p.1 = k then (k, v) else p)
  else
    d ++ [(k, v)]

/-- Python dict lookup `d[k]` / membership `k in d`. -/
def dictGet (d : List (String × MediaStreamTrack)) (k : String) :
    Option MediaStreamTrack :=
  (d.find? (fun p => p.1 = k)).map Prod.snd

/-- Python `str.split(sep)` with a one-character separator, over the string's
character list: split at every occurrence of the separator, keeping empty
pieces, so `"a:b"` gives `["a","b"]`, `"x"` gives `["x"]` and `""` gives
`[""]`. -/
def pySplitChars (sep : Char) : List Char → List (List Char)
  | [] => [[]]
  | c :: cs =>
    let rest := pySplitChars sep cs
    if c = sep then [] :: rest
    else
      match rest with
      | [] => [[c]]
      | p :: ps => (c :: p) :: ps

/-- Python `str.split(sep)` for a one-character separator. -/
def pySplit (s : String) (sep : Char) : List String :=
  (pySplitChars sep s.data).map (fun cs => String.mk cs)

/-- Python dynamic attribute lookup for the boolean attributes of a stream
object.  `WebRTCBaseStream.__init__` assigns exactly one boolean attribute
and names it `extected_incoming_audio`; looking up any other name raises
`AttributeError`. -/
def getBoolAttr (s : WebRTCBaseStream) (name : String) : Except PyError Bool :=
  if name = "extected_incoming_audio" then Except.ok s.extected_incoming_audio
  else Except.error (PyError.attributeError name)

/-- `WebRTCBaseStream._add_consumer_tracks`: one receive-only video
transceiver per expected camera type, then a receive-only audio transceiver
when audio is expected. -/
def addConsumerTracks (s : WebRTCBaseStream) : WebRTCBaseStream :=
  let pc := s.expected_incoming_camera_types.foldl
    (fun pc _ => pc.addTransceiver "video" "recvonly") s.peer_connection
  let pc := if s.extected_incoming_audio then pc.addTransceiver "audio" "recvonly" else pc
  { s with peer_connection := pc }

/-- `WebRTCBaseStream._add_producer_tracks`: add every outgoing video track,
then every outgoing audio track. -/
def addProducerTracks (s : WebRTCBaseStream) : WebRTCBaseStream :=
  let pc := s.outgoing_video_tracks.foldl
    (fun pc t => pc.addTrack t) s.peer_connection
  let pc := s.outgoing_audio_tracks.foldl
    (fun pc t => pc.addTrack t) pc
  { s with peer_connection := pc }

/-- `WebRTCBaseStream._on_incoming_track`, the track-arrival handler.  For a
video track the wire id is split on a colon; short splits return early, a
recognized expected label stores the track in the registry via dict
assignment.  For an audio track the source reads `self.expected_incoming_audio`,
an attribute `__init__` never assigned (it assigned `extected_incoming_audio`),
so the lookup is modelled dynamically. -/
def onIncomingTrack (s : WebRTCBaseStream) (track : MediaStreamTrack) :
    Option PyError × WebRTCBaseStream :=
  if track.kind = "video" then
    let parts := pySplit track.id ':'
    if parts.length < 2 then (none, s)
    else
      let camera_type := parts.headD ""
      if camera_type ∈ s.expected_incoming_camera_types then
        (none, { s with incoming_camera_tracks :=
                  dictSet s.incoming_camera_tracks camera_type track })
      else (none, s)
  else if track.kind = "audio" then
    match getBoolAttr s "expected_incoming_audio" with
    | Except.error e => (some e, s)
    | Except.ok b =>
      if b then (none, { s with incoming_audio_tracks := s.incoming_audio_tracks ++ [track] })
      else (none, s)
  else (none, s)

/-- A handle returned by `media_relay.subscribe(track, buffered=...)`: a fresh
derived track over the stored source. -/
structure RelayTrack where
  source : MediaStreamTrack
  buffered : Bool
deriving DecidableEq, Repr

/-- `WebRTCBaseStream.get_incoming_video_track`: assert the camera type is in
the registry (an `AssertionError` is the `TrackNotReady` failure), then
subscribe a fresh relay track to the stored track. -/
def getIncomingVideoTrack (s : WebRTCBaseStream) (camera_type : String)
    (buffered : Bool) : Except PyError RelayTrack :=
  match dictGet s.incoming_camera_tracks camera_type with
  | some track => Except.ok { source := track, buffered := buffered }
  | none => Except.error (PyError.assertionError "camera_type not in incoming_camera_tracks")

/-- `WebRTCBaseStream.get_incoming_audio_track`: assert at least one audio
track arrived, then subscribe to the first. -/
def getIncomingAudioTrack (s : WebRTCBaseStream) (buffered : Bool) :
    Except PyError RelayTrack :=
  match s.incoming_audio_tracks with
  | [] => Except.error (PyError.assertionError "no incoming audio tracks")
  | track :: _ => Except.ok { source := track, buffered := buffered }

/-- `WebRTCOfferStream`: the Initiator session.  `session_provider` is the
injected signaling function from an outgoing offer to the remote answer. -/
structure WebRTCOfferStream where
  base : WebRTCBaseStream
  session_provider : StreamingOffer → RTCSessionDescription

/-- `WebRTCOfferStream.__init__` as reached from `WebRTCStreamBuilder.offer`:
build the base state from the configuration, store the provider, and call
`_add_producer_tracks()` immediately (the source does this in the
constructor, not in `start`). -/
def WebRTCStreamBuilder.offer (b : WebRTCStreamBuilder)
    (connection_provider : StreamingOffer → RTCSessionDescription) :
    WebRTCOfferStream :=
  { base := addProducerTracks
      (WebRTCBaseStream.init b.consumed_camera_tracks b.consume_audio
        b.video_producing_tracks b.audio_producing_tracks),
    session_provider := connection_provider }

/-- `WebRTCOfferStream.start`: register consumer placeholders, create and set
the local offer, package the configuration into a `StreamingOffer`, call the
signaling provider, set the returned remote answer, return it.  The pair is
(result or raised error, the session state at return or at the raise). -/
def WebRTCOfferStream.start (s : WebRTCOfferStream) :
    Except PyError RTCSessionDescription × WebRTCOfferStream :=
  let base := addConsumerTracks s.base
  let (offer, pc) := base.peer_connection.createOffer
  let pc := pc.setLocalDescription offer
  match pc.localDescription with
  | none =>
    (Except.error (PyError.attributeError "sdp"),
     { s with base := { base with peer_connection := pc } })
  | some actual_offer =>
    let streaming_offer : StreamingOffer :=
      { sdp := actual_offer.sdp, type := actual_offer.type,
        video := base.expected_incoming_camera_types,
        audio := base.extected_incoming_audio }
    let remote_answer := s.session_provider streaming_offer
    let pc := pc.setRemoteDescription remote_answer
    match pc.remoteDescription with
    | none =>
      (Except.error (PyError.attributeError "remoteDescription"),
       { s with base := { base with peer_connection := pc } })
    | some actual_answer =>
      (Except.ok actual_answer,
       { s with base := { base with peer_connection := pc } })

/-- `WebRTCAnswerStream`: the Responder session; the received offer is stored
at construction. -/
structure WebRTCAnswerStream where
  base : WebRTCBaseStream
  offer : StreamingOffer
deriving DecidableEq, Repr

/-- `WebRTCStreamBuilder.answer`: build the base state from the configuration
and store the received offer. -/
def WebRTCStreamBuilder.answer (b : WebRTCStreamBuilder)
    (offer : StreamingOffer) : WebRTCAnswerStream :=
  { base := WebRTCBaseStream.init b.consumed_camera_tracks b.consume_audio
      b.video_producing_tracks b.audio_producing_tracks,
    offer := offer }

/-- `WebRTCAnswerStream.start`: assert no remote description is present yet,
set the supplied offer as remote description, register consumer placeholders
and producer tracks, create and set the local answer, return it. -/
def WebRTCAnswerStream.start (s : WebRTCAnswerStream) :
    Except PyError RTCSessionDescription × WebRTCAnswerStream :=
  match s.base.peer_connection.remoteDescription with
  | some _ => (Except.error (PyError.assertionError "Connection already established"), s)
  | none =>
    let pc := s.base.peer_connection.setRemoteDescription ⟨s.offer.sdp, s.offer.type⟩
    let base := addConsumerTracks { s.base with peer_connection := pc }
    let base := addProducerTracks base
    let (answer, pc2) := base.peer_connection.createAnswer
    let pc3 := pc2.setLocalDescription answer
    match pc3.localDescription with
    | none =>
      (Except.error (PyError.attributeError "localDescription"),
       { s with base := { base with peer_connection := pc3 } })
    | some actual_answer =>
      (Except.ok actual_answer,
       { s with base := { base with peer_connection := pc3 } })

/-! Reference-semantics model of the builder-to-session hand-off.  In the
source, `WebRTCStreamBuilder.offer` and `.answer` pass the builder's mutable
`consumed_camera_tracks` set object into `WebRTCBaseStream.__init__`, which
stores that same object as `expected_incoming_camera_types` without copying.
To state claims about later builder mutations being visible (or not) to the
session, the set lives in a heap of cells and both objects hold a cell
reference. -/

/-- A heap of mutable set cells; a reference is an index into `cells`. -/
structure SetHeap where
  cells : List (List String)
deriving DecidableEq, Repr

def SetHeap.get (h : SetHeap) (r : Nat) : List String := h.cells.getD r []

def SetHeap.set (h : SetHeap) (r : Nat) (v : List String) : SetHeap :=
  ⟨h.cells.set r v⟩

/-- The builder's reference to its `consumed_camera_tracks` set cell. -/
structure BuilderRef where
  consumed_camera_tracks : Nat
deriving DecidableEq, Repr

/-- The session's reference to its `expected_incoming_camera_types` set cell. -/
structure SessionRef where
  expected_incoming_camera_types : Nat
deriving DecidableEq, Repr

/-- The hand-off performed by `WebRTCStreamBuilder.offer` / `.answer` together
with `WebRTCBaseStream.__init__`: the session stores the very set object the
builder holds (`self.consumed_camera_tracks` is passed and assigned, never
copied), so the session's reference equals the builder's. -/
def builderToSession (b : BuilderRef) : SessionRef :=
  ⟨b.consumed_camera_tracks⟩

/-- `add_video_consumer` under reference semantics: assert the label, then
mutate the builder's set cell in place. -/
def add_video_consumer_ref (h : SetHeap) (b : BuilderRef) (camera_type : String) :
    Option PyError × SetHeap :=
  if camera_type ∈ validCameraTypes then
    (none, h.set b.consumed_camera_tracks
      (setAdd (h.get b.consumed_camera_tracks) camera_type))
  else
    (some (PyError.assertionError "camera_type not recognized"), h)

/-- What the session reads as its expected incoming camera types. -/
def sessionExpected (h : SetHeap) (s : SessionRef) : List String :=
  h.get s.expected_incoming_camera_types

/-! Event classification and counting over the connection log. -/

/-- A receive-only video transceiver registration (a video placeholder). -/
def isVideoPlaceholder : ConnEvent → Bool
  | ConnEvent.addTransceiver "video" "recvonly" => true
  | _ => false

/-- A receive-only audio transceiver registration (an audio placeholder). -/
def isAudioPlaceholder : ConnEvent → Bool
  | ConnEvent.addTransceiver "audio" "recvonly" => true
  | _ => false

/-- An outgoing-track attachment. -/
def isAddTrackEvent : ConnEvent → Bool
  | ConnEvent.addTrack _ => true
  | _ => false

def countVideoPlaceholders (log : List ConnEvent) : Nat :=
  (log.filter isVideoPlaceholder).length

def countAudioPlaceholders (log : List ConnEvent) : Nat :=
  (log.filter isAudioPlaceholder).length

/-! Concrete fixtures used by per-claim counterexamples and witnesses. -/

/-- A signaling provider returning a fixed remote answer. -/
def provFix : StreamingOffer → RTCSessionDescription :=
  fun _ => ⟨"remote-answer-sdp", "answer"⟩

/-- Responder with empty configuration, built from an offer declaring one
video label and audio. -/
def ansC1 : WebRTCAnswerStream :=
  WebRTCStreamBuilder.new.answer ⟨"offer-sdp-from-peer", "offer", ["driver"], true⟩

/-- Initiator expecting one camera label. -/
def offC2 : WebRTCOfferStream :=
  ((add_video_consumer WebRTCStreamBuilder.new "driver").2).offer provFix

/-- Responder with empty configuration. -/
def ansC2 : WebRTCAnswerStream :=
  WebRTCStreamBuilder.new.answer ⟨"offer-sdp-from-peer", "offer", [], false⟩

/-- Session expecting the label road, empty registry. -/
def sC3 : WebRTCBaseStream := WebRTCBaseStream.init ["road"] false [] []

/-- The same session after a first track identified road:a arrived. -/
def sC3a : WebRTCBaseStream := (onIncomingTrack sC3 ⟨"video", "road:a"⟩).2

/-- Session whose configuration expects audio. -/
def sC4 : WebRTCBaseStream := WebRTCBaseStream.init [] true [] []

/-- Initiator with one outgoing video producer and one expected camera. -/
def offC5 : WebRTCOfferStream :=
  ((add_video_producer
      (add_video_consumer WebRTCStreamBuilder.new "driver").2
      ⟨"video", "t1"⟩).2).offer provFix

/-- Heap with one empty set cell: a fresh builder's camera set. -/
def hC6a : SetHeap := ⟨[[]]⟩

/-- A builder whose camera set lives in cell 0. -/
def bC6 : BuilderRef := ⟨0⟩

/-- The session built from that builder. -/
def sesC6 : SessionRef := builderToSession bC6

/-- The heap after the builder adds the label road post-hand-off. -/
def hC6b : SetHeap := (add_video_consumer_ref hC6a bC6 "road").2

/-- Heap whose single cell already holds the label driver. -/
def hC6w : SetHeap := ⟨[["driver"]]⟩

/-- Session expecting only road and driver. -/
def sC7 : WebRTCBaseStream := WebRTCBaseStream.init ["road", "driver"] false [] []

/-- Session expecting the label driver. -/
def sC8 : WebRTCBaseStream := WebRTCBaseStream.init ["driver"] false [] []

/-- Builder that already has its one allowed audio consumer. -/
def bC10 : WebRTCStreamBuilder := (add_audio_consumer WebRTCStreamBuilder.new).2

/-! Helper lemmas. -/

theorem addTransceiver_log (pc : RTCPeerConnection) (k d : String) :
    (pc.addTransceiver k d).log = pc.log ++ [ConnEvent.addTransceiver k d] := rfl

theorem addTransceiver_remote (pc : RTCPeerConnection) (k d : String) :
    (pc.addTransceiver k d).remoteDescription = pc.remoteDescription := rfl

theorem addTrack_log (pc : RTCPeerConnection) (t : MediaStreamTrack) :
    (pc.addTrack t).log = pc.log ++ [ConnEvent.addTrack t] := rfl

theorem addTrack_remote (pc : RTCPeerConnection) (t : MediaStreamTrack) :
    (pc.addTrack t).remoteDescription = pc.remoteDescription := rfl

theorem setAdd_mem_self (s : List String) (x : String) : x ∈ setAdd s x := by
  unfold setAdd
  by_cases h : x ∈ s
  · simp only [h, if_true]
  · simp [h]

theorem setAdd_of_mem {s : List String} {x : String} (h : x ∈ s) :
    setAdd s x = s := by
  simp [setAdd, h]

theorem setAdd_length (s : List String) (x : String) :
    (setAdd s x).length ≤ s.length + 1 := by
  unfold setAdd
  by_cases h : x ∈ s
  · simp [h]
  · simp [h]

theorem dictGet_dictSet_self (d : List (String × MediaStreamTrack)) (k : String)
    (v : MediaStreamTrack) : dictGet (dictSet d k v) k = some v := by
  unfold dictSet dictGet
  by_cases h : d.any (fun p => p.1 = k)
  · simp only [h, if_true]
    induction d with
    | nil => simp at h
    | cons p ps ih =>
      by_cases hp : p.1 = k
      · simp [hp, List.find?]
      · have hps : ps.any (fun q => q.1 = k) := by
          simpa [List.any_cons, hp] using h
        simpa [List.find?, hp] using ih hps
  · simp only [h, if_false]
    induction d with
    | nil => simp [List.find?]
    | cons p ps ih =>
      have hp : ¬ p.1 = k := by
        intro hk
        exact h (by simp [List.any_cons, hk])
      have hps : ¬ ps.any (fun q => q.1 = k) := by
        intro hk
        exact h (by simp [List.any_cons, hk])
      simpa [List.find?, hp] using ih hps

theorem find?_map_update (ps : List (String × MediaStreamTrack))
    (k k' : String) (v : MediaStreamTrack) (hne : k' ≠ k) :
    List.find? (fun p => p.1 = k')
        (ps.map (fun p => if p.1 = k then (k, v) else p)) =
      List.find? (fun p => p.1 = k') ps := by
  induction ps with
  | nil => simp
  | cons p ps ih =>
    by_cases hp : p.1 = k
    · have h1 : ¬ ((k, v).1 = k') := fun hk => hne hk.symm
      have h2 : ¬ (p.1 = k') := by
        rw [hp]; exact fun hk => hne hk.symm
      simp [List.find?_cons, hp, h1, h2, ih]
    · by_cases hq : p.1 = k'
      · simp [List.find?_cons, hp, hq, hne]
      · simp [List.find?_cons, hp, hq, ih]

theorem find?_append_new_key (ps : List (String × MediaStreamTrack))
    (k k' : String) (v : MediaStreamTrack) (hne : k' ≠ k) :
    List.find? (fun p => p.1 = k') (ps ++ [(k, v)]) =
      List.find? (fun p => p.1 = k') ps := by
  have hkk : ¬ (k = k') := fun hh => hne hh.symm
  induction ps with
  | nil => simp [List.find?, hkk]
  | cons p ps ih =>
    by_cases hq : p.1 = k'
    · simp [List.find?_cons, hq]
    · simp [List.find?_cons, hq, ih]

theorem dictGet_dictSet_other (d : List (String × MediaStreamTrack))
    (k k' : String) (v : MediaStreamTrack) (hne : k' ≠ k) :
    dictGet (dictSet d k v) k' = dictGet d k' := by
  unfold dictSet dictGet
  by_cases h : d.any (fun p => p.1 = k)
  · rw [if_pos h, find?_map_update d k k' v hne]
  · rw [if_neg h, find?_append_new_key d k k' v hne]

theorem foldl_addTransceiver_log (l : List String) (pc : RTCPeerConnection) :
    (l.foldl (fun pc _ => pc.addTransceiver "video" "recvonly") pc).log =
      pc.log ++ l.map (fun _ => ConnEvent.addTransceiver "video" "recvonly") := by
  induction l generalizing pc with
  | nil => simp
  | cons x xs ih =>
    rw [List.foldl_cons, ih]
    simp [RTCPeerConnection.addTransceiver, List.append_assoc]

theorem foldl_addTrack_log (l : List MediaStreamTrack) (pc : RTCPeerConnection) :
    (l.foldl (fun pc t => pc.addTrack t) pc).log =
      pc.log ++ l.map ConnEvent.addTrack := by
  induction l generalizing pc with
  | nil => simp
  | cons x xs ih =>
    rw [List.foldl_cons, ih]
    simp [RTCPeerConnection.addTrack, List.append_assoc]

theorem foldl_addTransceiver_remote (l : List String) (pc : RTCPeerConnection) :
    (l.foldl (fun pc _ => pc.addTransceiver "video" "recvonly") pc).remoteDescription =
      pc.remoteDescription := by
  induction l generalizing pc with
  | nil => simp
  | cons x xs ih =>
    rw [List.foldl_cons, ih]
    simp [RTCPeerConnection.addTransceiver]

theorem foldl_addTrack_remote (l : List MediaStreamTrack) (pc : RTCPeerConnection) :
    (l.foldl (fun pc t => pc.addTrack t) pc).remoteDescription =
      pc.remoteDescription := by
  induction l generalizing pc with
  | nil => simp
  | cons x xs ih =>
    rw [List.foldl_cons, ih]
    simp [RTCPeerConnection.addTrack]

theorem filter_length_append (p : ConnEvent → Bool) (l1 l2 : List ConnEvent) :
    ((l1 ++ l2).filter p).length = (l1.filter p).length + (l2.filter p).length := by
  simp [List.filter_append]

theorem filter_length_map_const_true {α : Type} (p : ConnEvent → Bool)
    (e0 : ConnEvent) (hp : p e0 = true) (l : List α) :
    ((l.map fun _ => e0).filter p).length = l.length := by
  induction l with
  | nil => simp
  | cons x xs ih => simp [hp, ih]

theorem filter_length_map_false {α : Type} (p : ConnEvent → Bool)
    (f : α → ConnEvent) (hf : ∀ a, p (f a) = false) (l : List α) :
    ((l.map f).filter p).length = 0 := by
  induction l with
  | nil => simp
  | cons x xs ih => simp [hf, ih]

theorem getD_set_self (l : List (List String)) (r : Nat) (v : List String)
    (h : r < l.length) : (l.set r v).getD r [] = v := by
  induction l generalizing r with
  | nil => simp at h
  | cons x xs ih =>
    cases r with
    | zero => simp
    | succ n => simpa using ih n (by simpa using h)

/-- The full ordered engine-call log produced by constructing a Responder from
a builder and running `start` once. -/
theorem answer_start_log (b : WebRTCStreamBuilder) (offer : StreamingOffer) :
    ((b.answer offer).start).2.base.peer_connection.log =
      ConnEvent.setRemoteDescription ⟨offer.sdp, offer.type⟩ ::
        (b.consumed_camera_tracks.map
            (fun _ => ConnEvent.addTransceiver "video" "recvonly") ++
          ((if b.consume_audio then [ConnEvent.addTransceiver "audio" "recvonly"] else []) ++
            (b.video_producing_tracks.map ConnEvent.addTrack ++
              (b.audio_producing_tracks.map ConnEvent.addTrack ++
                [ConnEvent.createAnswer,
                 ConnEvent.setLocalDescription ⟨"sdp-from-createAnswer", "answer"⟩])))) := by
  by_cases hb : b.consume_audio
  all_goals
    simp [WebRTCStreamBuilder.answer, WebRTCAnswerStream.start, WebRTCBaseStream.init,
      RTCPeerConnection.new, RTCPeerConnection.setRemoteDescription,
      RTCPeerConnection.setLocalDescription, RTCPeerConnection.createAnswer,
      addConsumerTracks, addProducerTracks,
      foldl_addTransceiver_log, foldl_addTrack_log, addTransceiver_log,
      hb, List.append_assoc]

/-- After a first `start` that ran from a fresh connection, the Responder's
remote description is the supplied offer's description. -/
theorem answer_start_remote_of_none (s : WebRTCAnswerStream)
    (h : s.base.peer_connection.remoteDescription = none) :
    ((s.start).2).base.peer_connection.remoteDescription =
      some ⟨s.offer.sdp, s.offer.type⟩ := by
  by_cases ha : s.base.extected_incoming_audio
  all_goals
    simp [WebRTCAnswerStream.start, h, addConsumerTracks, addProducerTracks,
      RTCPeerConnection.createAnswer, RTCPeerConnection.setLocalDescription,
      RTCPeerConnection.setRemoteDescription,
      foldl_addTransceiver_remote, foldl_addTrack_remote, addTransceiver_remote,
      ha]

/-- A Responder whose connection already has a remote description fails the
opening assert of `start` and is left untouched. -/
theorem answer_second_start_of_some (s1 : WebRTCAnswerStream)
    (d : RTCSessionDescription)
    (h : s1.base.peer_connection.remoteDescription = some d) :
    s1.start =
      (Except.error (PyError.assertionError "Connection already established"), s1) := by
  simp [WebRTCAnswerStream.start, h]

/-! Claim theorems. -/

/-- C7: a video track whose parsed label is not in the session's expected set
leaves the handler state (in particular the registry) unchanged and raises
nothing, and a subsequent `get_incoming_video_track` for that label (still
absent from the registry) fails with the assertion that models
`TrackNotReady`. -/
theorem unexpected_label_dropped (s : WebRTCBaseStream) (track : MediaStreamTrack)
    (buffered : Bool) (hkind : track.kind = "video")
    (hexp : (pySplit track.id ':').headD "" ∉ s.expected_incoming_camera_types) :
    onIncomingTrack s track = (none, s) ∧
    (dictGet s.incoming_camera_tracks ((pySplit track.id ':').headD "") = none →
      getIncomingVideoTrack s ((pySplit track.id ':').headD "") buffered =
        Except.error (PyError.assertionError "camera_type not in incoming_camera_tracks")) := by
  constructor
  · by_cases hlen : (pySplit track.id ':').length < 2
    · simp [onIncomingTrack, hkind, hlen]
    · rw [List.headD_eq_head?] at hexp
      simp [onIncomingTrack, hkind, hlen, hexp]
  · intro hget
    rw [List.headD_eq_head?] at hget
    simp [getIncomingVideoTrack, hget]

/-- C7 witness: a track identified wideRoad:xyz arriving on a session that
expects only road and driver is dropped and the getter still fails. -/
theorem unexpected_label_dropped_witness :
    onIncomingTrack sC7 ⟨"video", "wideRoad:xyz"⟩ = (none, sC7) ∧
    getIncomingVideoTrack sC7 "wideRoad" false =
      Except.error (PyError.assertionError "camera_type not in incoming_camera_tracks") :=
  ⟨(unexpected_label_dropped sC7 ⟨"video", "wideRoad:xyz"⟩ false rfl (by decide)).1,
   (unexpected_label_dropped sC7 ⟨"video", "wideRoad:xyz"⟩ false rfl (by decide)).2
     (by decide)⟩

/-- C8: a video track whose wire identifier splits into fewer than two
colon-separated parts is ignored: the handler returns with no error and with
the whole session state, registry included, unchanged. -/
theorem malformed_track_id_ignored (s : WebRTCBaseStream)
    (track : MediaStreamTrack) (hkind : track.kind = "video")
    (hlen : (pySplit track.id ':').length < 2) :
    onIncomingTrack s track = (none, s) := by
  simp [onIncomingTrack, hkind, hlen]

/-- C8 witness: the malformed identifier onlylabel (no colon) never populates
the registry and never raises. -/
theorem malformed_track_id_ignored_witness :
    onIncomingTrack sC8 ⟨"video", "onlylabel"⟩ = (none, sC8) :=
  malformed_track_id_ignored sC8 ⟨"video", "onlylabel"⟩ rfl (by decide)

/-- C9: `add_video_consumer` fails exactly when the label is outside the
closed camera set (and then with the assertion error, builder untouched);
for any label a repeated call is a no-op, and one call grows the consumed
set by at most one. -/
theorem add_video_consumer_spec (b : WebRTCStreamBuilder) (label : String) :
    ((add_video_consumer b label).1 = none ↔ label ∈ validCameraTypes) ∧
    ((add_video_consumer b label).1 = none ∨
      add_video_consumer b label =
        (some (PyError.assertionError "camera_type not recognized"), b)) ∧
    (add_video_consumer (add_video_consumer b label).2 label =
      add_video_consumer b label) ∧
    ((add_video_consumer b label).2.consumed_camera_tracks.length ≤
      b.consumed_camera_tracks.length + 1) := by
  by_cases h : label ∈ validCameraTypes
  · refine ⟨by simp [add_video_consumer, h],
      Or.inl (by simp [add_video_consumer, h]), ?_, ?_⟩
    · simp [add_video_consumer, h, setAdd_of_mem (setAdd_mem_self _ _)]
    · simpa [add_video_consumer, h] using
        setAdd_length b.consumed_camera_tracks label
  · refine ⟨by simp [add_video_consumer, h],
      Or.inr (by simp [add_video_consumer, h]), ?_, ?_⟩
    · simp [add_video_consumer, h]
    · simp [add_video_consumer, h]

/-- C10: every failing builder operation (invalid camera label, second audio
consumer, producer of the wrong media kind) raises before mutating, so the
builder state it returns is exactly the input state. -/
theorem builder_failures_preserve_state (b : WebRTCStreamBuilder)
    (label : String) (t u : MediaStreamTrack) :
    ((add_video_consumer b label).1 ≠ none → (add_video_consumer b label).2 = b) ∧
    ((add_audio_consumer b).1 ≠ none → (add_audio_consumer b).2 = b) ∧
    ((add_video_producer b t).1 ≠ none → (add_video_producer b t).2 = b) ∧
    ((add_audio_producer b u).1 ≠ none → (add_audio_producer b u).2 = b) := by
  refine ⟨?_, ?_, ?_, ?_⟩
  · intro h
    by_cases hl : label ∈ validCameraTypes
    · exact absurd (by simp [add_video_consumer, hl]) h
    · simp [add_video_consumer, hl]
  · intro h
    by_cases ha : b.consume_audio
    · simp [add_audio_consumer, ha]
    · exact absurd (by simp [add_audio_consumer, ha]) h
  · intro h
    by_cases hk : t.kind = "video"
    · exact absurd (by simp [add_video_producer, hk]) h
    · simp [add_video_producer, hk]
  · intro h
    by_cases hk : u.kind = "audio"
    · exact absurd (by simp [add_audio_producer, hk]) h
    · simp [add_audio_producer, hk]

/-- C10 witness: on a builder that already consumes audio, an invalid label,
a second audio consumer, and producers of the wrong kinds all fail and leave
the builder unchanged. -/
theorem builder_failures_preserve_state_witness :
    (add_video_consumer bC10 "fake").2 = bC10 ∧
    (add_audio_consumer bC10).2 = bC10 ∧
    (add_video_producer bC10 ⟨"audio", "a0"⟩).2 = bC10 ∧
    (add_audio_producer bC10 ⟨"video", "v0"⟩).2 = bC10 :=
  ⟨(builder_failures_preserve_state bC10 "fake" ⟨"audio", "a0"⟩ ⟨"video", "v0"⟩).1
      (by decide),
   (builder_failures_preserve_state bC10 "fake" ⟨"audio", "a0"⟩ ⟨"video", "v0"⟩).2.1
      (by decide),
   (builder_failures_preserve_state bC10 "fake" ⟨"audio", "a0"⟩ ⟨"video", "v0"⟩).2.2.1
      (by decide),
   (builder_failures_preserve_state bC10 "fake" ⟨"audio", "a0"⟩ ⟨"video", "v0"⟩).2.2.2
      (by decide)⟩

/-- C4: code bug.  `__init__` assigns the audio flag under the attribute name
`extected_incoming_audio`, but the track-arrival handler reads
`self.expected_incoming_audio`; that attribute never exists, so every
audio-kind track arrival raises `AttributeError` instead of storing or
dropping the track. -/
theorem audio_track_arrival_raises (s : WebRTCBaseStream)
    (track : MediaStreamTrack) (hkind : track.kind = "audio") :
    onIncomingTrack s track =
      (some (PyError.attributeError "expected_incoming_audio"), s) := by
  have h1 : ¬ (("audio" : String) = "video") := by decide
  have h2 : ¬ (("expected_incoming_audio" : String) = "extected_incoming_audio") := by
    decide
  simp [onIncomingTrack, hkind, getBoolAttr, h1, h2]

/-- C4 witness: an audio track arriving on a session whose configuration does
expect audio still raises `AttributeError`. -/
theorem audio_track_arrival_raises_witness :
    onIncomingTrack sC4 ⟨"audio", "audio-mic"⟩ =
      (some (PyError.attributeError "expected_incoming_audio"), sC4) :=
  audio_track_arrival_raises sC4 ⟨"audio", "audio-mic"⟩ rfl

/-- C3 counterexample: on a session expecting road, after road:a arrives and
then road:b arrives, the registry holds the second track, not the first: the
first-arriving track does not win and the duplicate is not dropped. -/
theorem first_arrival_wins_counterexample :
    dictGet (onIncomingTrack sC3a ⟨"video", "road:b"⟩).2.incoming_camera_tracks
        "road" = some ⟨"video", "road:b"⟩ ∧
    (MediaStreamTrack.mk "video" "road:b") ≠ (MediaStreamTrack.mk "video" "road:a") := by
  decide

/-- C3 amended: for an expected label, every arrival is stored via plain dict
assignment, so the last-arriving track with a given label wins (a duplicate
arrival replaces the stored track rather than being dropped); other labels'
entries are untouched and nothing is raised. -/
theorem expected_track_arrival_last_wins (s : WebRTCBaseStream)
    (track : MediaStreamTrack) (hkind : track.kind = "video")
    (hlen : 2 ≤ (pySplit track.id ':').length)
    (hexp : (pySplit track.id ':').headD "" ∈ s.expected_incoming_camera_types) :
    (onIncomingTrack s track).1 = none ∧
    dictGet (onIncomingTrack s track).2.incoming_camera_tracks
        ((pySplit track.id ':').headD "") = some track ∧
    (∀ k, k ≠ (pySplit track.id ':').headD "" →
      dictGet (onIncomingTrack s track).2.incoming_camera_tracks k =
        dictGet s.incoming_camera_tracks k) := by
  have hlen' : ¬ ((pySplit track.id ':').length < 2) := by omega
  rw [List.headD_eq_head?] at hexp
  refine ⟨?_, ?_, ?_⟩
  · simp [onIncomingTrack, hkind, hlen', hexp]
  · simp [onIncomingTrack, hkind, hlen', hexp, dictGet_dictSet_self]
  · intro k hk
    rw [List.headD_eq_head?] at hk
    simp [onIncomingTrack, hkind, hlen', hexp, dictGet_dictSet_other _ _ _ _ hk]

/-- C3 witness: with road:a already stored, the arrival of road:b completes
without error, overwrites the road entry, and leaves the driver entry as it
was. -/
theorem expected_track_arrival_last_wins_witness :
    (onIncomingTrack sC3a ⟨"video", "road:b"⟩).1 = none ∧
    dictGet (onIncomingTrack sC3a ⟨"video", "road:b"⟩).2.incoming_camera_tracks
        "road" = some ⟨"video", "road:b"⟩ ∧
    dictGet (onIncomingTrack sC3a ⟨"video", "road:b"⟩).2.incoming_camera_tracks
        "driver" = dictGet sC3a.incoming_camera_tracks "driver" :=
  ⟨(expected_track_arrival_last_wins sC3a ⟨"video", "road:b"⟩ rfl (by decide)
      (by decide)).1,
   (expected_track_arrival_last_wins sC3a ⟨"video", "road:b"⟩ rfl (by decide)
      (by decide)).2.1,
   (expected_track_arrival_last_wins sC3a ⟨"video", "road:b"⟩ rfl (by decide)
      (by decide)).2.2 "driver" (by decide)⟩

/-- C1 counterexample: a Responder built from an empty configuration and an
offer declaring one video label and audio registers zero video and zero audio
placeholders during start, not the one-and-one the offer declared. -/
theorem responder_placeholders_counterexample :
    ansC1.offer.video = ["driver"] ∧ ansC1.offer.audio = true ∧
    countVideoPlaceholders (ansC1.start).2.base.peer_connection.log = 0 ∧
    countAudioPlaceholders (ansC1.start).2.base.peer_connection.log = 0 := by
  decide

/-- C1 amended: the Responder's receive-only placeholders follow the session
configuration's own expected-incoming declarations — one video placeholder
per label in the configuration's consumed set and one audio placeholder iff
the configuration's audio flag is set — for every offer, i.e. regardless of
what the offer declared. -/
theorem responder_placeholders_follow_config (b : WebRTCStreamBuilder)
    (offer : StreamingOffer) :
    countVideoPlaceholders ((b.answer offer).start).2.base.peer_connection.log =
        b.consumed_camera_tracks.length ∧
    countAudioPlaceholders ((b.answer offer).start).2.base.peer_connection.log =
        (if b.consume_audio then 1 else 0) := by
  have hv : (List.filter isVideoPlaceholder
      (b.consumed_camera_tracks.map
        fun _ => ConnEvent.addTransceiver "video" "recvonly")).length =
      b.consumed_camera_tracks.length :=
    filter_length_map_const_true _ _ rfl _
  have hv1 : (List.filter isVideoPlaceholder
      (b.video_producing_tracks.map ConnEvent.addTrack)).length = 0 :=
    filter_length_map_false _ _ (fun a => rfl) _
  have hv2 : (List.filter isVideoPlaceholder
      (b.audio_producing_tracks.map ConnEvent.addTrack)).length = 0 :=
    filter_length_map_false _ _ (fun a => rfl) _
  have ha : (List.filter isAudioPlaceholder
      (b.consumed_camera_tracks.map
        fun _ => ConnEvent.addTransceiver "video" "recvonly")).length = 0 :=
    filter_length_map_false _ _ (fun a => rfl) _
  have ha1 : (List.filter isAudioPlaceholder
      (b.video_producing_tracks.map ConnEvent.addTrack)).length = 0 :=
    filter_length_map_false _ _ (fun a => rfl) _
  have ha2 : (List.filter isAudioPlaceholder
      (b.audio_producing_tracks.map ConnEvent.addTrack)).length = 0 :=
    filter_length_map_false _ _ (fun a => rfl) _
  by_cases hb : b.consume_audio
  all_goals
    constructor
  all_goals
    rw [answer_start_log]
    simp [countVideoPlaceholders, countAudioPlaceholders, isVideoPlaceholder,
      isAudioPlaceholder, List.filter_append, hb, hv, hv1, hv2, ha, ha1, ha2]

/-- C1 amended, witness-style corollary is not needed: the theorem is
hypothesis-free.  C5 counterexample: on an Initiator built with one producer
track and one expected camera, the very first engine call of the session's
lifetime is the producer attachment and the placeholder registration only
comes second, contradicting the claimed placeholders-first order. -/
theorem initiator_order_counterexample :
    (offC5.start).2.base.peer_connection.log.findIdx isAddTrackEvent = 0 ∧
    (offC5.start).2.base.peer_connection.log.findIdx isVideoPlaceholder = 1 := by
  decide

/-- C5 amended: the Initiator attaches all outgoing producer tracks at
construction time, registers the receive-only placeholders at the start of
`start`, and only after both creates the local offer and sets the local
description, as the full engine-call log shows. -/
theorem initiator_sequence_order (b : WebRTCStreamBuilder)
    (p : StreamingOffer → RTCSessionDescription) :
    ((b.offer p).start).2.base.peer_connection.log =
      b.video_producing_tracks.map ConnEvent.addTrack ++
        (b.audio_producing_tracks.map ConnEvent.addTrack ++
          (b.consumed_camera_tracks.map
              (fun _ => ConnEvent.addTransceiver "video" "recvonly") ++
            ((if b.consume_audio then [ConnEvent.addTransceiver "audio" "recvonly"]
              else []) ++
              [ConnEvent.createOffer,
               ConnEvent.setLocalDescription ⟨"sdp-from-createOffer", "offer"⟩,
               ConnEvent.setRemoteDescription
                 (p ⟨"sdp-from-createOffer", "offer", b.consumed_camera_tracks,
                     b.consume_audio⟩)]))) := by
  by_cases hb : b.consume_audio
  all_goals
    simp [WebRTCStreamBuilder.offer, WebRTCOfferStream.start, WebRTCBaseStream.init,
      RTCPeerConnection.new, RTCPeerConnection.setRemoteDescription,
      RTCPeerConnection.setLocalDescription, RTCPeerConnection.createOffer,
      addConsumerTracks, addProducerTracks,
      foldl_addTransceiver_log, foldl_addTrack_log, addTransceiver_log,
      hb, List.append_assoc]

/-- C2 counterexample: on a concrete Initiator session, `start` succeeds and a
second `start` on the resulting session succeeds as well — it does not fail
with any already-started error. -/
theorem second_start_counterexample :
    (offC2.start).1.isOk = true ∧ ((offC2.start).2.start).1.isOk = true := by
  exact ⟨rfl, rfl⟩

/-- C2 amended: only the Responder guards repeated negotiation — after a
successful `start`, a second `start` fails with the assertion Connection
already established and returns the session state unchanged; the Initiator
has no such guard, and `start` on the session left by a previous `start`
completes successfully again. -/
theorem second_start_behavior :
    (∀ (o : WebRTCOfferStream), ((o.start).2.start).1.isOk = true) ∧
    (∀ (s : WebRTCAnswerStream), (s.start).1.isOk = true →
      (s.start).2.start =
        (Except.error (PyError.assertionError "Connection already established"),
         (s.start).2)) := by
  constructor
  · intro o
    rfl
  · intro s hs
    cases hrem : s.base.peer_connection.remoteDescription with
    | some d =>
      simp [WebRTCAnswerStream.start, hrem, Except.isOk, Except.toBool] at hs
    | none =>
      exact answer_second_start_of_some _ _ (answer_start_remote_of_none s hrem)

/-- C2 witness: a concrete Responder whose first `start` succeeded fails its
second `start` with the assertion and is left unchanged, while a concrete
Initiator's second `start` succeeds. -/
theorem second_start_behavior_witness :
    ((offC2.start).2.start).1.isOk = true ∧
    (ansC2.start).2.start =
      (Except.error (PyError.assertionError "Connection already established"),
       (ansC2.start).2) :=
  ⟨second_start_behavior.1 offC2, second_start_behavior.2 ansC2 (by decide)⟩

/-- C6 counterexample: under the reference semantics of the hand-off, a
session built from a builder with an empty camera set sees the label road in
its expected set as soon as the builder's `add_video_consumer` runs after
construction: the configuration is not immutable for the session. -/
theorem config_immutable_counterexample :
    sessionExpected hC6a sesC6 = [] ∧
    (add_video_consumer_ref hC6a bC6 "road").1 = none ∧
    sessionExpected hC6b sesC6 = ["road"] := by
  decide

/-- C6 amended: the session stores the builder's mutable camera-set object
itself, so a valid `add_video_consumer` on the builder after the hand-off is
visible in the session's expected set, which becomes the updated set. -/
theorem builder_mutation_visible_to_session (h : SetHeap) (b : BuilderRef)
    (camera_type : String) (hv : camera_type ∈ validCameraTypes)
    (hr : b.consumed_camera_tracks < h.cells.length) :
    sessionExpected ((add_video_consumer_ref h b camera_type).2)
        (builderToSession b) =
      setAdd (sessionExpected h (builderToSession b)) camera_type := by
  have hset := getD_set_self h.cells b.consumed_camera_tracks
    (setAdd (SetHeap.get h b.consumed_camera_tracks) camera_type) hr
  simpa [add_video_consumer_ref, hv, sessionExpected, builderToSession,
    SetHeap.set, SetHeap.get] using hset

/-- C6 witness: a builder whose set cell holds driver adds road after the
hand-off; the session's expected set becomes the updated set. -/
theorem builder_mutation_visible_to_session_witness :
    sessionExpected ((add_video_consumer_ref hC6w bC6 "road").2)
        (builderToSession bC6) =
      setAdd (sessionExpected hC6w (builderToSession bC6)) "road" :=
  builder_mutation_visible_to_session hC6w bC6 "road" (by decide) (by decide)

end WebRTCStream
